import Mathlib

/-!
# Verification of the Atlas Jenga game core (atlas_game_main.py)

Shallow embedding of the sensor classifier, score calculator and game state
machine of `src/atlas_game_main.py`.  Conventions:

* Python floats carrying weights, times and timestamps are modelled as `ℚ`;
  every value the development evaluates is exactly representable, so no claim
  here depends on binary floating-point rounding.
* The serial port is modelled by `serialOpen : Bool` (whether
  `serial.Serial(port, baudrate)` succeeded in `SerialHandler.__init__`) and a
  buffer `pending : List (Option ℚ)` of lines waiting in `in_waiting` order.
  Each buffered line is represented by the outcome of the parsing cascade of
  `read_weight` (label extraction, then `float` of the stripped line):
  `some v` for a line that parses to the weight `v`, `none` for a line whose
  parse raises `ValueError`.  No claim depends on the textual format itself,
  only on parse success and the parsed value, so the text is abstracted to its
  parse outcome.
* `time.time()` values are passed in explicitly as `now : ℚ` arguments.
* Python's `int(x)` truncates toward zero; it is modelled by `pyInt`.
* Audio playback and rendering are fire-and-forget side effects with no
  influence on game state; they are omitted.
-/

/-- `GAME_DURATION = 120` (seconds). -/
def GAME_DURATION : ℚ := 120

/-- `BLOCKS_TO_WIN = 10`. -/
def BLOCKS_TO_WIN : Nat := 10

/-- `WEIGHT_THRESHOLD = 5`. -/
def WEIGHT_THRESHOLD : ℚ := 5

/-- `COLLAPSE_THRESHOLD = 30`. -/
def COLLAPSE_THRESHOLD : ℚ := 30

/-- The `GameState` enum of the source: PREGAME, PLAYING, POSTGAME. -/
inductive GameState where
  | PREGAME
  | PLAYING
  | POSTGAME
deriving DecidableEq

/-- The two sensor-derived game events the detectors of `SerialHandler` can
report (the spec's Event type, minus the implicit None which is `Option`'s
`none` here). -/
inductive GameEvent where
  | BlockRemoved
  | TowerCollapsed
deriving DecidableEq

/-- The `Score` dataclass.  `timestamp` carries the value of the dataclass
default `time.time()`; in Python that default expression is evaluated once,
when the class body is executed at program start, so every `Score` built
without an explicit timestamp receives that single program-start value
(passed around below as `t0`). -/
structure Score where
  team_name : String
  blocks_removed : Nat
  time_remaining : ℚ
  total_score : ℤ
  timestamp : ℚ
deriving DecidableEq

/-- State of `SerialHandler`: whether the port opened, the buffered lines
(by parse outcome), and the `last_weight` field (initialised to `0` in
`__init__` before the port is opened). -/
structure SerialHandler where
  serialOpen : Bool
  pending : List (Option ℚ)
  last_weight : ℚ
deriving DecidableEq

/-- `SerialHandler.read_weight`.  Returns the weight produced this call and
the handler afterwards.  Faithful to the source:
`if not self.serial: return 0.0`; otherwise, when a line is waiting it is
consumed (`readline`) and its parsed value returned, a `ValueError` being
caught and falling through to `return self.last_weight`; when no line is
waiting, `self.last_weight` is returned.  Note the method never assigns
`self.last_weight`. -/
def read_weight (h : SerialHandler) : ℚ × SerialHandler :=
  if h.serialOpen = false then (0, h)
  else
    match h.pending with
    | [] => (h.last_weight, h)
    | line :: rest =>
      match line with
      | some v => (v, { h with pending := rest })
      | none => (h.last_weight, { h with pending := rest })

/-- `SerialHandler.detect_block_removal`: reads a weight, fires when
`abs(current_weight - self.last_weight) > WEIGHT_THRESHOLD`, and only then
advances `self.last_weight` to the current weight. -/
def detect_block_removal (h : SerialHandler) : Bool × SerialHandler :=
  let r := read_weight h
  if |r.1 - r.2.last_weight| > WEIGHT_THRESHOLD then
    (true, { r.2 with last_weight := r.1 })
  else
    (false, r.2)

/-- `SerialHandler.detect_tower_collapse`: reads a weight, fires when the
signed change `current_weight - self.last_weight > COLLAPSE_THRESHOLD`, and
only then advances `self.last_weight`. -/
def detect_tower_collapse (h : SerialHandler) : Bool × SerialHandler :=
  let r := read_weight h
  if r.1 - r.2.last_weight > COLLAPSE_THRESHOLD then
    (true, { r.2 with last_weight := r.1 })
  else
    (false, r.2)

/-- A handler poised so that both detector reads observe the same current
weight `c` against the stored baseline `prev`: the configuration in which
`AtlasJengaGame.update`'s two detector calls classify a single pair of
consecutive weights. -/
def classifyHandler (prev c : ℚ) : SerialHandler :=
  { serialOpen := true, pending := [some c, some c], last_weight := prev }

/-- The classification step applied by `AtlasJengaGame.update` to one pair of
consecutive weights, in the source's priority order
(`detect_tower_collapse` first, `detect_block_removal` only if it did not
fire).  Returns the emitted event and the `last_weight` baseline
afterwards. -/
def classifyStep (prev c : ℚ) : Option GameEvent × ℚ :=
  let t := detect_tower_collapse (classifyHandler prev c)
  if t.1 then (some GameEvent.TowerCollapsed, t.2.last_weight)
  else
    let b := detect_block_removal t.2
    if b.1 then (some GameEvent.BlockRemoved, b.2.last_weight)
    else (none, b.2.last_weight)

/-- The event emitted by the classification step. -/
def classify (prev c : ℚ) : Option GameEvent :=
  (classifyStep prev c).1

/-- State of `LeaderboardManager`: the persisted rows, together with a flag
modelling the environment in which the next sqlite statement raises
`sqlite3.Error` (disk/database failure) instead of committing. -/
structure LeaderboardManager where
  entries : List Score
  failing : Bool
deriving DecidableEq

/-- `LeaderboardManager.add_score`: the `INSERT` either commits, appending
the row, or the sqlite layer raises — modelled by `Except.error`.  The
source wraps the statement in a transaction only (`with self.conn`); it
installs no exception handler. -/
def add_score (lb : LeaderboardManager) (s : Score) : Except Unit LeaderboardManager :=
  if lb.failing then Except.error ()
  else Except.ok { lb with entries := lb.entries ++ [s] }

/-- State of `AtlasJengaGame`: the fields assigned in `__init__` and
`reset_game` that the game logic reads or writes. -/
structure AtlasJengaGame where
  serial_handler : SerialHandler
  leaderboard : LeaderboardManager
  state : GameState
  blocks_removed : Nat
  start_time : ℚ
  time_remaining : ℚ
  current_score : ℤ
  team_name : String
  tower_collapsed : Bool
deriving DecidableEq

/-- `AtlasJengaGame.reset_game` at time `now`: zeroes the run state and
re-baselines the serial handler with one `read_weight` call
(`self.serial_handler.last_weight = self.serial_handler.read_weight()`). -/
def reset_game (g : AtlasJengaGame) (now : ℚ) : AtlasJengaGame :=
  let r := read_weight g.serial_handler
  { g with
      blocks_removed := 0
      start_time := now
      time_remaining := GAME_DURATION
      current_score := 0
      team_name := ""
      tower_collapsed := false
      serial_handler := { r.2 with last_weight := r.1 } }

/-- Python's `int(x)` conversion: truncation toward zero. -/
def pyInt (q : ℚ) : ℤ :=
  if 0 ≤ q then ⌊q⌋ else ⌈q⌉

/-- `AtlasJengaGame.calculate_score`:
`int(time_remaining * 10 + (100 if blocks_removed >= BLOCKS_TO_WIN else 0)
+ blocks_removed * 100)`. -/
def calculate_score (g : AtlasJengaGame) : ℤ :=
  let speed_bonus : ℚ := g.time_remaining * 10
  let stability_bonus : ℚ := if g.blocks_removed ≥ BLOCKS_TO_WIN then 100 else 0
  pyInt (speed_bonus + stability_bonus + (g.blocks_removed : ℚ) * 100)

/-- The `Score` record constructed in the submit branch of
`AtlasJengaGame.handle_events`; `timestamp` is not passed, so it receives the
dataclass default `t0` (the value `time.time()` had once, when the class was
defined at program start). -/
def submittedScore (g : AtlasJengaGame) (t0 : ℚ) : Score :=
  { team_name := g.team_name
    blocks_removed := g.blocks_removed
    time_remaining := g.time_remaining
    total_score := calculate_score g
    timestamp := t0 }

/-- Keys of pygame `KEYDOWN` events as `handle_events` distinguishes them. -/
inductive PyKey where
  | K_RETURN
  | K_BACKSPACE
  | K_OTHER
deriving DecidableEq

/-- The pygame events `handle_events` reacts to.  `KEYDOWN` carries the key
and `event.unicode`. -/
inductive PyEvent where
  | QUIT
  | KEYDOWN (key : PyKey) (uni : String)
  | MOUSEBUTTONDOWN
deriving DecidableEq

/-- `AtlasJengaGame.handle_events` over the list of pending pygame events.
`Except.ok (g, running)` is a normal return (`running = false` for a `QUIT`,
which returns immediately, skipping later events); `Except.error g` models an
exception raised by `add_score` propagating out of the method — no handler
exists, and `g` is the object state at the point of the raise (the `Score`
was built but `self.state` was not yet reassigned). -/
def handle_events (g : AtlasJengaGame) (evs : List PyEvent) (now t0 : ℚ) :
    Except AtlasJengaGame (AtlasJengaGame × Bool) :=
  match evs with
  | [] => Except.ok (g, true)
  | PyEvent.QUIT :: _ => Except.ok (g, false)
  | PyEvent.KEYDOWN key uni :: rest =>
    if g.state = GameState.POSTGAME then
      match key with
      | PyKey.K_RETURN =>
        match add_score g.leaderboard (submittedScore g t0) with
        | Except.error _ => Except.error g
        | Except.ok lb =>
          handle_events { g with leaderboard := lb, state := GameState.PREGAME } rest now t0
      | PyKey.K_BACKSPACE =>
        handle_events { g with team_name := g.team_name.dropRight 1 } rest now t0
      | PyKey.K_OTHER =>
        handle_events { g with team_name := g.team_name ++ uni } rest now t0
    else
      handle_events g rest now t0
  | PyEvent.MOUSEBUTTONDOWN :: rest =>
    if g.state = GameState.PREGAME then
      handle_events (reset_game { g with state := GameState.PLAYING } now) rest now t0
    else
      handle_events g rest now t0

/-- `AtlasJengaGame.update` at time `now`, additionally reporting which sensor
event this tick acted on.  Faithful to the source: only in PLAYING; first
recomputes `time_remaining`; `detect_tower_collapse` runs first and on
success sets POSTGAME and returns; otherwise `detect_block_removal` runs
(performing its own serial read), on success increments `blocks_removed` and
moves to POSTGAME at `BLOCKS_TO_WIN`; finally the timeout check runs. -/
def updateE (g : AtlasJengaGame) (now : ℚ) : AtlasJengaGame × Option GameEvent :=
  if g.state = GameState.PLAYING then
    let g1 := { g with time_remaining := GAME_DURATION - (now - g.start_time) }
    let t := detect_tower_collapse g1.serial_handler
    if t.1 then
      ({ g1 with serial_handler := t.2, state := GameState.POSTGAME },
        some GameEvent.TowerCollapsed)
    else
      let b := detect_block_removal t.2
      let g2 := { g1 with serial_handler := b.2 }
      if b.1 then
        let g3 := { g2 with blocks_removed := g2.blocks_removed + 1 }
        let g4 :=
          if g3.blocks_removed ≥ BLOCKS_TO_WIN then { g3 with state := GameState.POSTGAME }
          else g3
        let g5 :=
          if g4.time_remaining ≤ 0 then { g4 with state := GameState.POSTGAME } else g4
        (g5, some GameEvent.BlockRemoved)
      else
        let g5 :=
          if g2.time_remaining ≤ 0 then { g2 with state := GameState.POSTGAME } else g2
        (g5, none)
  else
    (g, none)

/-- One iteration of `AtlasJengaGame.run`'s loop body up to `update`:
`handle_events` then `update`.  An exception escaping `handle_events`
propagates out of `run` (no handler exists on the path), carried here as
`Except.error`; a returned error therefore means the tick loop has
terminated. -/
def runStep (g : AtlasJengaGame) (evs : List PyEvent) (now t0 : ℚ) :
    Except AtlasJengaGame (AtlasJengaGame × Bool) :=
  match handle_events g evs now t0 with
  | Except.error g1 => Except.error g1
  | Except.ok (g1, running) => Except.ok ((updateE g1 now).1, running)

/-- Whether a loop iteration completed normally (the loop continues) rather
than terminating with a propagated exception. -/
def stepNormal (r : Except AtlasJengaGame (AtlasJengaGame × Bool)) : Bool :=
  match r with
  | Except.ok _ => true
  | Except.error _ => false

/-- Deliver one new serial line (by parse outcome) into the handler's buffer:
the arrival of one sensor sample between ticks. -/
def feedSample (g : AtlasJengaGame) (s : Option ℚ) : AtlasJengaGame :=
  { g with
      serial_handler :=
        { g.serial_handler with pending := g.serial_handler.pending ++ [s] } }

/-- Run a sequence of ticks, each delivering exactly one new sample before
its `update` call; returns the final state and the per-tick events. -/
def runFeed (g : AtlasJengaGame) : List (Option ℚ × ℚ) → AtlasJengaGame × List (Option GameEvent)
  | [] => (g, [])
  | (s, now) :: rest =>
    let r := updateE (feedSample g s) now
    let t := runFeed r.1 rest
    (t.1, r.2 :: t.2)

/-- Run a sequence of bare `update` ticks (no new serial data delivered);
returns the final state and the per-tick events. -/
def runUpdates (g : AtlasJengaGame) : List ℚ → AtlasJengaGame × List (Option GameEvent)
  | [] => (g, [])
  | now :: rest =>
    let r := updateE g now
    let t := runUpdates r.1 rest
    (t.1, r.2 :: t.2)

/-- The score formula exactly as the spec words it (for comparison with
`calculate_score`): `floor(max(timeRemaining, 0) × 10)` plus the win bonus
plus `blocksRemoved × 100`, with `timeRemaining` clamped to `≥ 0` before the
multiplication. -/
def specScore (blocksRemoved : Nat) (timeRemaining : ℚ) : ℤ :=
  ⌊max timeRemaining 0 * 10⌋ +
    (if blocksRemoved ≥ BLOCKS_TO_WIN then 100 else 0) + (blocksRemoved : ℤ) * 100

/-- Closed form of the classification step: collapse on a signed jump above
`COLLAPSE_THRESHOLD`, else removal on an absolute change above
`WEIGHT_THRESHOLD`, else nothing; the baseline advances exactly on an
emission. -/
lemma classifyStep_eq (prev c : ℚ) :
    classifyStep prev c =
      if COLLAPSE_THRESHOLD < c - prev then (some GameEvent.TowerCollapsed, c)
      else if WEIGHT_THRESHOLD < |c - prev| then (some GameEvent.BlockRemoved, c)
      else (none, prev) := by
  by_cases h1 : COLLAPSE_THRESHOLD < c - prev <;>
    by_cases h2 : WEIGHT_THRESHOLD < |c - prev| <;>
    simp [classifyStep, classifyHandler, detect_tower_collapse, detect_block_removal,
      read_weight, h1, h2]

/-- C1: for a pair of consecutive weights with delta `Δ = c − prev`, the
classification step returns TowerCollapsed when `Δ > COLLAPSE_THRESHOLD`
(never BlockRemoved there), BlockRemoved when
`WEIGHT_THRESHOLD < |Δ| ≤ COLLAPSE_THRESHOLD`, and no event when
`|Δ| ≤ WEIGHT_THRESHOLD`. -/
theorem classify_threshold_cases (prev c : ℚ) :
    (COLLAPSE_THRESHOLD < c - prev → classify prev c = some GameEvent.TowerCollapsed) ∧
    (WEIGHT_THRESHOLD < |c - prev| ∧ |c - prev| ≤ COLLAPSE_THRESHOLD →
      classify prev c = some GameEvent.BlockRemoved) ∧
    (|c - prev| ≤ WEIGHT_THRESHOLD → classify prev c = none) := by
  refine ⟨fun h => ?_, fun h => ?_, fun h => ?_⟩ <;>
    simp only [classify, classifyStep_eq]
  · rw [if_pos h]
  · rw [if_neg, if_pos h.1]
    have := le_abs_self (c - prev)
    intro hc
    exact absurd (lt_of_lt_of_le hc this) (not_lt.mpr h.2)
  · rw [if_neg, if_neg (not_lt.mpr h)]
    have h1 := le_abs_self (c - prev)
    have h2 : WEIGHT_THRESHOLD ≤ COLLAPSE_THRESHOLD := by norm_num [WEIGHT_THRESHOLD, COLLAPSE_THRESHOLD]
    intro hc
    exact absurd (lt_of_lt_of_le hc h1) (not_lt.mpr (le_trans h h2))

/-- Witness for C1 at concrete deltas 40, 7 and 3. -/
theorem classify_threshold_cases_w :
    classify 0 40 = some GameEvent.TowerCollapsed ∧
    classify 0 7 = some GameEvent.BlockRemoved ∧
    classify 0 3 = none :=
  ⟨(classify_threshold_cases 0 40).1 (by norm_num [COLLAPSE_THRESHOLD]),
   (classify_threshold_cases 0 7).2.1
     ⟨by norm_num [WEIGHT_THRESHOLD], by norm_num [COLLAPSE_THRESHOLD]⟩,
   (classify_threshold_cases 0 3).2.2 (by norm_num [WEIGHT_THRESHOLD])⟩

/-- C7: whenever the classification step emits an event, the stored baseline
advances to the triggering weight, and presenting that same weight again
produces no further event. -/
theorem classify_debounce (prev c : ℚ) (h : (classifyStep prev c).1 ≠ none) :
    (classifyStep prev c).2 = c ∧ classify c c = none := by
  constructor
  · rw [classifyStep_eq] at h ⊢
    split_ifs at h ⊢ <;> simp_all
  · simp only [classify, classifyStep_eq]
    norm_num [WEIGHT_THRESHOLD, COLLAPSE_THRESHOLD]

/-- Witness for C7 at baseline 0 and triggering weight 10. -/
theorem classify_debounce_w :
    (classifyStep 0 10).2 = 10 ∧ classify 10 10 = none :=
  classify_debounce 0 10 (by
    rw [classifyStep_eq]
    norm_num [WEIGHT_THRESHOLD, COLLAPSE_THRESHOLD]
    exact fun hc => Option.noConfusion hc)

/-- A baseline game object as `__init__` plus the initial `reset_game` leave
it when the port opened with no data buffered: handler open and idle with
zero baseline, empty leaderboard, and zeroed run state. -/
def baseGame : AtlasJengaGame :=
  { serial_handler := { serialOpen := true, pending := [], last_weight := 0 }
    leaderboard := { entries := [], failing := false }
    state := GameState.PREGAME
    blocks_removed := 0
    start_time := 0
    time_remaining := 120
    current_score := 0
    team_name := ""
    tower_collapsed := false }

/-- The C2 run: a game mid-play whose ticks each receive exactly one fresh
sample. -/
def g2init : AtlasJengaGame :=
  { baseGame with state := GameState.PLAYING }

/-- C2 (code evaluated at the failing input): with exactly one new sample per
tick carrying deltas 2, −3, 7 against the never-advancing baseline 0, the
three ticks emit no event at all — `detect_tower_collapse`'s read consumes
the tick's only sample, and `detect_block_removal`'s second read finds the
buffer empty and falls back to `last_weight`, comparing it with itself — so
the Δ = 7 block removal is never counted, where the spec requires the event
sequence [None, None, BlockRemoved]. -/
theorem one_sample_per_tick_drops_removal :
    (runFeed g2init [(some 2, 1), (some (-3), 2), (some 7, 3)]).2 = [none, none, none] ∧
    (runFeed g2init [(some 2, 1), (some (-3), 2), (some 7, 3)]).1.blocks_removed = 0 := by
  norm_num [runFeed, updateE, feedSample, detect_tower_collapse, detect_block_removal,
    read_weight, g2init, baseGame, GAME_DURATION, BLOCKS_TO_WIN, WEIGHT_THRESHOLD,
    COLLAPSE_THRESHOLD]

/-- A postgame snapshot with 5 blocks removed and an (unclamped) negative
remaining time, as arises on the tick that times the game out. -/
def g3neg : AtlasJengaGame :=
  { baseGame with state := GameState.POSTGAME, blocks_removed := 5, time_remaining := -1 }

/-- Counterexample to C3: at blocksRemoved = 5, timeRemaining = −1 the code
yields `int(-10 + 0 + 500) = 490`, while the claim's clamped formula yields
`floor(max(-1,0)·10) + 500 = 500` — `calculate_score` does not clamp a
negative remaining time. -/
theorem calculate_score_clamp_counterexample :
    g3neg.blocks_removed = 5 ∧ g3neg.time_remaining = -1 ∧
    calculate_score g3neg = 490 ∧ specScore 5 (-1) = 500 ∧
    calculate_score g3neg ≠ specScore g3neg.blocks_removed g3neg.time_remaining := by
  norm_num [calculate_score, pyInt, specScore, g3neg, baseGame, BLOCKS_TO_WIN]

/-- C3 as amended: the score is the truncation of
`timeRemaining·10 + winBonus + blocksRemoved·100` with no clamping; in
particular for non-negative remaining time it equals
`floor(timeRemaining·10)` plus the bonuses. -/
theorem calculate_score_formula (g : AtlasJengaGame) (h : 0 ≤ g.time_remaining) :
    calculate_score g =
      ⌊g.time_remaining * 10⌋ +
        ((if g.blocks_removed ≥ BLOCKS_TO_WIN then 100 else 0) +
          (g.blocks_removed : ℤ) * 100) := by
  have hb : (0:ℚ) ≤ (g.blocks_removed : ℚ) * 100 := by positivity
  have ht : (0:ℚ) ≤ g.time_remaining * 10 := by linarith
  have hq : (0:ℚ) ≤ g.time_remaining * 10 +
      (if g.blocks_removed ≥ BLOCKS_TO_WIN then (100:ℚ) else 0) +
      (g.blocks_removed : ℚ) * 100 := by
    split_ifs <;> linarith
  simp only [calculate_score, pyInt]
  rw [if_pos hq]
  by_cases hw : g.blocks_removed ≥ BLOCKS_TO_WIN
  · rw [if_pos hw, if_pos hw]
    rw [show g.time_remaining * 10 + 100 + (g.blocks_removed : ℚ) * 100
        = g.time_remaining * 10 + ((100 + (g.blocks_removed : ℤ) * 100 : ℤ) : ℚ) by
          push_cast; ring]
    rw [Int.floor_add_int]
  · rw [if_neg hw, if_neg hw]
    rw [show g.time_remaining * 10 + 0 + (g.blocks_removed : ℚ) * 100
        = g.time_remaining * 10 + (((g.blocks_removed : ℤ) * 100 : ℤ) : ℚ) by
          push_cast; ring]
    rw [Int.floor_add_int]
    ring

/-- Fresh run: no blocks, full 120 seconds left. -/
def gScoreA : AtlasJengaGame :=
  { baseGame with blocks_removed := 0, time_remaining := 120 }

/-- Winning run: 10 blocks, 60 seconds left. -/
def gScoreB : AtlasJengaGame :=
  { baseGame with blocks_removed := 10, time_remaining := 60 }

/-- Timed-out run: 5 blocks, no time left. -/
def gScoreC : AtlasJengaGame :=
  { baseGame with blocks_removed := 5, time_remaining := 0 }

/-- Witness for the amended C3 at the spec's three cited inputs:
score(0, 120) = 1200, score(10, 60) = 1700, score(5, 0) = 500. -/
theorem calculate_score_formula_w :
    calculate_score gScoreA = 1200 ∧ calculate_score gScoreB = 1700 ∧
    calculate_score gScoreC = 500 :=
  ⟨(calculate_score_formula gScoreA (by norm_num [gScoreA, baseGame])).trans
      (by norm_num [gScoreA, baseGame, BLOCKS_TO_WIN]),
   (calculate_score_formula gScoreB (by norm_num [gScoreB, baseGame])).trans
      (by norm_num [gScoreB, baseGame, BLOCKS_TO_WIN]),
   (calculate_score_formula gScoreC (by norm_num [gScoreC, baseGame])).trans
      (by norm_num [gScoreC, baseGame, BLOCKS_TO_WIN])⟩

/-- A playing game whose next serial line parses to weight 40 against the
baseline 0: a collapse-magnitude jump (Δ = 40 > 30). -/
def g4play : AtlasJengaGame :=
  { baseGame with
      state := GameState.PLAYING
      serial_handler := { serialOpen := true, pending := [some 40], last_weight := 0 } }

/-- C4 (code evaluated at the failing input): a collapse-magnitude jump in
PLAYING does emit TowerCollapsed and move the game to POSTGAME, but
`tower_collapsed` is left `false` — no assignment `self.tower_collapsed =
True` exists anywhere in the source, so the flag the claim requires to be set
(and which `draw_postgame` tests) never becomes true. -/
theorem update_collapse_leaves_flag_false :
    (updateE g4play 1).2 = some GameEvent.TowerCollapsed ∧
    (updateE g4play 1).1.state = GameState.POSTGAME ∧
    (updateE g4play 1).1.tower_collapsed = false := by
  norm_num [updateE, detect_tower_collapse, detect_block_removal, read_weight, g4play,
    baseGame, GAME_DURATION, BLOCKS_TO_WIN, WEIGHT_THRESHOLD, COLLAPSE_THRESHOLD]

/-- A handler with one waiting line that parses to 7, against baseline 0. -/
def h5parse : SerialHandler :=
  { serialOpen := true, pending := [some 7], last_weight := 0 }

/-- A handler whose port failed to open, with last accepted value 5. -/
def h5offline : SerialHandler :=
  { serialOpen := false, pending := [], last_weight := 5 }

/-- Counterexample to C5: a successful parse (line value 7) leaves the stored
`last_weight` at 0 instead of updating it to 7, and with the link unavailable
`read_weight` returns 0.0, not the last accepted value 5. -/
theorem read_weight_claim_counterexample :
    (read_weight h5parse).1 = 7 ∧ (read_weight h5parse).2.last_weight = 0 ∧
    (read_weight h5parse).2.last_weight ≠ (read_weight h5parse).1 ∧
    (read_weight h5offline).1 = 0 ∧ h5offline.last_weight = 5 ∧
    (read_weight h5offline).1 ≠ h5offline.last_weight := by
  norm_num [read_weight, h5parse, h5offline]

/-- C5 as amended: `read_weight` never writes `last_weight` (the baseline
advances only in the detectors on an emission, and in `reset_game`); a
successful parse returns the parsed value with the baseline untouched; on
parse failure or an empty buffer it returns the stored last weight unchanged;
and with the link unavailable it returns 0.0 regardless of the stored
value. -/
theorem read_weight_behavior (h : SerialHandler) :
    (read_weight h).2.last_weight = h.last_weight ∧
    (h.serialOpen = false → read_weight h = (0, h)) ∧
    (h.serialOpen = true → h.pending = [] → read_weight h = (h.last_weight, h)) ∧
    (∀ v rest, h.serialOpen = true → h.pending = some v :: rest →
      read_weight h = (v, { h with pending := rest })) ∧
    (∀ rest, h.serialOpen = true → h.pending = none :: rest →
      read_weight h = (h.last_weight, { h with pending := rest })) := by
  rcases h with ⟨o, p, w⟩
  cases o
  · simp [read_weight]
  · rcases p with _ | ⟨line, rest⟩
    · simp [read_weight]
    · rcases line with _ | v <;> simp [read_weight]

/-- Witness for the amended C5 at the concrete handler `h5parse`. -/
theorem read_weight_behavior_w :
    read_weight h5parse = (7, { h5parse with pending := [] }) :=
  (read_weight_behavior h5parse).2.2.2.1 7 [] rfl rfl

/-- C6: a start request (mouse click) received in PreGame moves the machine
to Playing and resets the whole run state — blocks 0, full duration, empty
team name, collapse flag cleared — whatever the previous game left behind. -/
theorem start_request_resets (g : AtlasJengaGame) (now t0 : ℚ)
    (h : g.state = GameState.PREGAME) :
    handle_events g [PyEvent.MOUSEBUTTONDOWN] now t0 =
      Except.ok (reset_game { g with state := GameState.PLAYING } now, true) ∧
    (reset_game { g with state := GameState.PLAYING } now).state = GameState.PLAYING ∧
    (reset_game { g with state := GameState.PLAYING } now).blocks_removed = 0 ∧
    (reset_game { g with state := GameState.PLAYING } now).time_remaining = GAME_DURATION ∧
    (reset_game { g with state := GameState.PLAYING } now).tower_collapsed = false ∧
    (reset_game { g with state := GameState.PLAYING } now).team_name = "" ∧
    (reset_game { g with state := GameState.PLAYING } now).start_time = now := by
  refine ⟨?_, rfl, rfl, rfl, rfl, rfl, rfl⟩
  simp [handle_events, h]

/-- A pregame object still carrying the leavings of a finished game. -/
def gPre : AtlasJengaGame :=
  { baseGame with
      blocks_removed := 7
      tower_collapsed := true
      team_name := "AB"
      time_remaining := -2 }

/-- Witness for C6 on a pregame state polluted by a previous run. -/
theorem start_request_resets_w :
    handle_events gPre [PyEvent.MOUSEBUTTONDOWN] 5 0 =
      Except.ok (reset_game { gPre with state := GameState.PLAYING } 5, true) ∧
    (reset_game { gPre with state := GameState.PLAYING } 5).state = GameState.PLAYING ∧
    (reset_game { gPre with state := GameState.PLAYING } 5).blocks_removed = 0 ∧
    (reset_game { gPre with state := GameState.PLAYING } 5).time_remaining = GAME_DURATION ∧
    (reset_game { gPre with state := GameState.PLAYING } 5).tower_collapsed = false ∧
    (reset_game { gPre with state := GameState.PLAYING } 5).team_name = "" ∧
    (reset_game { gPre with state := GameState.PLAYING } 5).start_time = 5 :=
  start_request_resets gPre 5 0 rfl

/-- `read_weight` with the port never opened returns 0.0 and changes
nothing. -/
lemma read_weight_eq_offline (h : SerialHandler) (hs : h.serialOpen = false) :
    read_weight h = (0, h) := by
  simp [read_weight, hs]

/-- With the port never opened and the baseline at its initial 0,
`detect_tower_collapse` never fires and changes nothing. -/
lemma detect_tower_collapse_offline (h : SerialHandler) (hs : h.serialOpen = false)
    (hw : h.last_weight = 0) : detect_tower_collapse h = (false, h) := by
  rw [detect_tower_collapse, read_weight_eq_offline h hs]
  norm_num [hw, COLLAPSE_THRESHOLD]

/-- With the port never opened and the baseline at its initial 0,
`detect_block_removal` never fires and changes nothing. -/
lemma detect_block_removal_offline (h : SerialHandler) (hs : h.serialOpen = false)
    (hw : h.last_weight = 0) : detect_block_removal h = (false, h) := by
  rw [detect_block_removal, read_weight_eq_offline h hs]
  norm_num [hw, WEIGHT_THRESHOLD]

/-- With the port never opened (`self.serial = None`) and the baseline at its
initial 0, one `update` tick emits nothing, leaves the handler untouched,
and can change phase only through the timeout test. -/
lemma updateE_offline (g : AtlasJengaGame) (now : ℚ)
    (hs : g.serial_handler.serialOpen = false) (hw : g.serial_handler.last_weight = 0) :
    (updateE g now).2 = none ∧
    (updateE g now).1.serial_handler = g.serial_handler ∧
    (updateE g now).1.blocks_removed = g.blocks_removed ∧
    (g.state = GameState.PLAYING →
      ((updateE g now).1.state = GameState.POSTGAME ↔
        GAME_DURATION - (now - g.start_time) ≤ 0)) ∧
    (g.state ≠ GameState.PLAYING → (updateE g now).1 = g) := by
  by_cases hp : g.state = GameState.PLAYING
  · simp only [updateE, hp, if_pos]
    simp only [detect_tower_collapse_offline g.serial_handler hs hw,
      detect_block_removal_offline g.serial_handler hs hw]
    split_ifs with h1 <;> simp_all
  · simp [updateE, hp]

/-- C8: if the serial port could not be opened, then over any sequence of
ticks no sensor event is ever emitted, and a Playing game moves to PostGame
on a tick exactly when that tick's timeout test fires. -/
theorem offline_only_timeout (g : AtlasJengaGame) (nows : List ℚ)
    (hs : g.serial_handler.serialOpen = false) (hw : g.serial_handler.last_weight = 0) :
    (runUpdates g nows).2 = List.replicate nows.length none ∧
    (g.state = GameState.PLAYING → ∀ now,
      ((updateE g now).1.state = GameState.POSTGAME ↔
        GAME_DURATION - (now - g.start_time) ≤ 0)) := by
  constructor
  · induction nows generalizing g with
    | nil => simp [runUpdates]
    | cons now rest ih =>
      have h1 := updateE_offline g now hs hw
      simp only [runUpdates, List.length_cons, List.replicate, h1.1]
      have h2 : (updateE g now).1.serial_handler.serialOpen = false := by
        rw [h1.2.1]; exact hs
      have h3 : (updateE g now).1.serial_handler.last_weight = 0 := by
        rw [h1.2.1]; exact hw
      simp [ih (updateE g now).1 h2 h3]
  · intro hp now
    exact (updateE_offline g now hs hw).2.2.2.1 hp

/-- A mid-play game object whose serial port never opened. -/
def gOff : AtlasJengaGame :=
  { baseGame with
      state := GameState.PLAYING
      serial_handler := { serialOpen := false, pending := [], last_weight := 0 } }

/-- Witness for C8: two offline ticks emit nothing, and the tick at time 130
(past the 120-second duration from start time 0) is exactly a timeout. -/
theorem offline_only_timeout_w :
    (runUpdates gOff [1, 130]).2 = List.replicate 2 none ∧
    ((updateE gOff 130).1.state = GameState.POSTGAME ↔
      GAME_DURATION - (130 - gOff.start_time) ≤ 0) :=
  ⟨(offline_only_timeout gOff [1, 130] rfl rfl).1,
   (offline_only_timeout gOff [1, 130] rfl rfl).2 rfl 130⟩

/-- C9 as amended: a failing leaderboard insert during submit surfaces as a
raised exception carrying the object with GameRunState and phase unchanged
(still PostGame, nothing mutated before the raise), but the exception is
caught nowhere in `handle_events` or `run`, so the tick loop terminates
instead of surviving the storage failure. -/
theorem submit_failure_raises (g : AtlasJengaGame) (now t0 : ℚ)
    (hp : g.state = GameState.POSTGAME) (hf : g.leaderboard.failing = true) :
    handle_events g [PyEvent.KEYDOWN PyKey.K_RETURN ""] now t0 = Except.error g ∧
    runStep g [PyEvent.KEYDOWN PyKey.K_RETURN ""] now t0 = Except.error g ∧
    stepNormal (runStep g [PyEvent.KEYDOWN PyKey.K_RETURN ""] now t0) = false := by
  have h1 : handle_events g [PyEvent.KEYDOWN PyKey.K_RETURN ""] now t0 = Except.error g := by
    simp [handle_events, hp, add_score, hf]
  exact ⟨h1, by simp [runStep, h1], by simp [stepNormal, runStep, h1]⟩

/-- A finished game awaiting submit whose next sqlite insert will fail. -/
def g9 : AtlasJengaGame :=
  { baseGame with
      state := GameState.POSTGAME
      leaderboard := { entries := [], failing := true }
      blocks_removed := 3
      time_remaining := 50 }

/-- Counterexample to C9: on a concrete PostGame state with a failing store,
the loop iteration ends in a propagated exception — `stepNormal` is false —
so the tick loop is terminated by the submission failure, contrary to the
claim. -/
theorem submit_failure_kills_loop :
    g9.state = GameState.POSTGAME ∧ g9.leaderboard.failing = true ∧
    runStep g9 [PyEvent.KEYDOWN PyKey.K_RETURN ""] 0 0 = Except.error g9 ∧
    stepNormal (runStep g9 [PyEvent.KEYDOWN PyKey.K_RETURN ""] 0 0) = false := by
  refine ⟨rfl, rfl, ?_, ?_⟩ <;>
    simp [runStep, stepNormal, handle_events, add_score, g9, baseGame]

/-- Witness for the amended C9 at the concrete failing store. -/
theorem submit_failure_raises_w :
    handle_events g9 [PyEvent.KEYDOWN PyKey.K_RETURN ""] 1 2 = Except.error g9 :=
  (submit_failure_raises g9 1 2 rfl rfl).1

/-- C10: any two successful submissions in one program run append scores
stamped with the same `t0` — the `time.time()` evaluated once when the
`Score` dataclass was defined — so a submitted score's timestamp never
reflects the submission instant. -/
theorem submissions_share_class_timestamp (t0 nowA nowB : ℚ) (gA gB : AtlasJengaGame)
    (hA : gA.state = GameState.POSTGAME) (hB : gB.state = GameState.POSTGAME)
    (fA : gA.leaderboard.failing = false) (fB : gB.leaderboard.failing = false) :
    handle_events gA [PyEvent.KEYDOWN PyKey.K_RETURN ""] nowA t0 =
      Except.ok ({ gA with
        leaderboard :=
          { gA.leaderboard with entries := gA.leaderboard.entries ++ [submittedScore gA t0] }
        state := GameState.PREGAME }, true) ∧
    handle_events gB [PyEvent.KEYDOWN PyKey.K_RETURN ""] nowB t0 =
      Except.ok ({ gB with
        leaderboard :=
          { gB.leaderboard with entries := gB.leaderboard.entries ++ [submittedScore gB t0] }
        state := GameState.PREGAME }, true) ∧
    (submittedScore gA t0).timestamp = (submittedScore gB t0).timestamp := by
  refine ⟨?_, ?_, rfl⟩ <;> simp [handle_events, hA, hB, add_score, fA, fB]

/-- First submitted run of the session. -/
def gTa : AtlasJengaGame :=
  { baseGame with
      state := GameState.POSTGAME
      team_name := "A"
      blocks_removed := 1
      time_remaining := 3 }

/-- A later submitted run of the same session. -/
def gTb : AtlasJengaGame :=
  { baseGame with
      state := GameState.POSTGAME
      team_name := "B"
      blocks_removed := 2
      time_remaining := 7 }

/-- Witness for C10: two different submissions at different times carry the
identical class-definition timestamp. -/
theorem submissions_share_class_timestamp_w :
    (submittedScore gTa 42).timestamp = (submittedScore gTb 42).timestamp :=
  (submissions_share_class_timestamp 42 1 2 gTa gTb rfl rfl rfl rfl).2.2
